import Mathlib

/-!
Shallow embedding of `src/sync.py` (class `BackupSync`) of the
rsync-service repository, together with proofs checking the
natural-language specification against it.

Python strings are modelled by Lean `String`, Python lists by `List`,
Python dicts (which preserve insertion order and update in place) by
association lists with an order-preserving upsert, `None`-able values by
`Option`, and the outcome of the external child process / file system /
SMTP session by explicit oracle values passed in as arguments.
-/

namespace RsyncService

/-- Python's single-character `str.split(sep)` on a list of characters.
`splitChar c l` never returns `[]`; on an empty input it returns `[[]]`,
matching `''.split(':') == ['']`. -/
def splitChar (c : Char) : List Char → List (List Char)
  | [] => [[]]
  | x :: xs =>
    let r := splitChar c xs
    if x = c then [] :: r
    else (x :: r.headD []) :: r.tail

/-- Characters removed by Python's `str.strip()` (the ASCII whitespace set). -/
def pyIsSpace (c : Char) : Bool :=
  c = ' ' || c = '\t' || c = '\n' || c = '\r' || c = '\x0b' || c = '\x0c'

/-- Python's `str.strip()` on a list of characters. -/
def pyStripL (l : List Char) : List Char :=
  ((l.dropWhile pyIsSpace).reverse.dropWhile pyIsSpace).reverse

/-- Python's `str.strip()`. -/
def pyStrip (s : String) : String :=
  String.mk (pyStripL s.data)

/-- Python's `sep in line` substring test. -/
def strContains (s pat : String) : Bool :=
  decide (pat.data <:+: s.data)

/-- Python's `line.split(sep)` for a one-character separator. -/
def pySplitChar (c : Char) (s : String) : List String :=
  (splitChar c s.data).map String.mk

/-- Python-dict upsert on an association list: an existing key keeps its
position and gets the new value, a new key is appended at the end. -/
def dictInsert {α : Type} (d : List (String × α)) (k : String) (v : α) :
    List (String × α) :=
  if d.any (fun p => p.1 = k) then
    d.map (fun p => if p.1 = k then (k, v) else p)
  else
    d ++ [(k, v)]

/-- `parse_rsync_stats` (src/sync.py lines 174-191): classification of one
line by the `if/elif` chain, in source order; the result is the dict key
the line's value is stored under. -/
def classifyLine (line : String) : Option String :=
  if strContains line "Number of files:" then some "total_files"
  else if strContains line "Number of created files:" then some "created_files"
  else if strContains line "Number of deleted files:" then some "deleted_files"
  else if strContains line "Total transferred file size:" then some "transferred_size"
  else if strContains line "Total file size:" then some "total_size"
  else none

/-- `line.split(':')[1].strip()` of src/sync.py: the segment of the line
strictly between the first colon and the second colon (or the end of the
line), stripped. On a line with no colon Python would raise `IndexError`;
every line reaching this expression contains a colon (each recognized
label ends in one), and the model returns `""` there. -/
def lineValue (line : String) : String :=
  pyStrip ((pySplitChar ':' line).getD 1 "")

/-- `BackupSync.parse_rsync_stats` (src/sync.py lines 174-191): split the
output on newlines, and for each line matching the `if/elif` chain store
the extracted value under the corresponding key. -/
def parse_rsync_stats (output : String) : List (String × String) :=
  (pySplitChar '\n' output).foldl
    (fun stats line =>
      match classifyLine line with
      | some key => dictInsert stats key (lineValue line)
      | none => stats)
    []

/-- One sync job from `config['sync_jobs']`: `job.get('enabled', True)` is
modelled by a plain `enabled` flag holding the effective value. -/
structure JobSpec where
  name : String
  source : String
  destination : String
  exclude : List String
  enabled : Bool
deriving Repr, DecidableEq

/-- Outcome of the `subprocess.run` call for one job, as seen by
`run_rsync`'s `try/except`: a normal exit (with return code, captured
output and measured wall-clock duration in seconds), a
`subprocess.TimeoutExpired`, or any other exception (stringified). -/
inductive ProcOutcome where
  | exited (returncode : Int) (stdout : String) (stderr : String) (elapsed : Nat)
  | timedOut
  | execError (msg : String)
deriving Repr, DecidableEq

/-- The per-job `job_status` dict built by `run_rsync` (src/sync.py lines
115-126, 140-152, 158-170). The normal-exit branch has no `error` key,
modelled as `none`. -/
structure RunResult where
  name : String
  source : String
  destination : String
  last_run : String
  duration : Nat
  success : Bool
  return_code : Int
  error : Option String
  stats : List (String × String)
  stdout : String
  stderr : String
deriving Repr, DecidableEq

/-- The `job_status` value `run_rsync` builds for a job, its start
timestamp and a child-process outcome (src/sync.py lines 101-172). -/
def mkRunResult (job : JobSpec) (startTime : String) (o : ProcOutcome) : RunResult :=
  match o with
  | .exited rc out err elapsed =>
      { name := job.name, source := job.source, destination := job.destination,
        last_run := startTime, duration := elapsed,
        success := decide (rc = 0), return_code := rc, error := none,
        stats := parse_rsync_stats out, stdout := out, stderr := err }
  | .timedOut =>
      { name := job.name, source := job.source, destination := job.destination,
        last_run := startTime, duration := 3600,
        success := false, return_code := -1,
        error := some "Timeout after 1 hour", stats := [],
        stdout := "", stderr := "Process timed out" }
  | .execError msg =>
      { name := job.name, source := job.source, destination := job.destination,
        last_run := startTime, duration := 0,
        success := false, return_code := -1,
        error := some msg, stats := [],
        stdout := "", stderr := msg }

/-- `last_summary` written by `run_all_jobs` (src/sync.py lines 251-255). -/
structure Summary where
  successful : Nat
  failed : Nat
  total : Nat
deriving Repr, DecidableEq

/-- The in-memory `self.status` document. The fresh default document has
no `last_summary` key, modelled as `none`. -/
structure Status where
  jobs : List (String × RunResult)
  last_run : Option String
  total_runs : Nat
  last_summary : Option Summary
deriving Repr, DecidableEq

/-- The empty default status document `{'jobs': {}, 'last_run': None,
'total_runs': 0}` built by `load_status` (src/sync.py lines 52-56, 60). -/
def defaultStatus : Status :=
  { jobs := [], last_run := none, total_runs := 0, last_summary := none }

/-- Outcome of `open(self.status_file)` + `json.load` as seen by
`load_status`'s `try/except` chain: a successful parse of a document,
`FileNotFoundError`, or any other exception. -/
inductive ReadOutcome where
  | ok (doc : Status)
  | fileNotFound
  | otherError (msg : String)
deriving Repr, DecidableEq

/-- `BackupSync.load_status` (src/sync.py lines 46-60): the resulting
`self.status`, paired with the document handed to a `save_status` write
attempt (`none` when no write happens; `save_status` is called only on
the `FileNotFoundError` branch, and serializes the `self.status` just
assigned there). -/
def load_status (r : ReadOutcome) : Status × Option Status :=
  match r with
  | .ok doc => (doc, none)
  | .fileNotFound => (defaultStatus, some defaultStatus)
  | .otherError _ => (defaultStatus, none)

/-- `run_rsync`'s effect on `self.status`: after building the job status
it always executes `self.status['jobs'][name] = job_status` (src/sync.py
lines 128, 153, 171), then returns the job status. -/
def run_rsync (st : Status) (job : JobSpec) (startTime : String)
    (o : ProcOutcome) : Status × RunResult :=
  let r := mkRunResult job startTime o
  ({ st with jobs := dictInsert st.jobs job.name r }, r)

/-- A log event emitted by `send_notification`. -/
inductive NotifyLog where
  | warnedNoEmail
  | sentOk
  | loggedDeliveryError (msg : String)
deriving Repr, DecidableEq

/-- Result of one `send_notification` call: whether the message
composition / SMTP delivery block was entered, and the log lines it
emitted. The function always returns (every exception inside the `try` is
caught on line 225). -/
structure NotifyOutcome where
  attempted : Bool
  logs : List NotifyLog
deriving Repr, DecidableEq

/-- Python truthiness of `notification_config.get('email')`: absent key or
empty string are falsy. -/
def emailTruthy (email : Option String) : Bool :=
  match email with
  | none => false
  | some s => !s.isEmpty

/-- `BackupSync.send_notification` (src/sync.py lines 193-226). `email` is
`notification_config.get('email')`; `tryResult` is the outcome of the
message composition and SMTP delivery code (lines 204-221), an oracle
since it performs I/O: `Except.error e` stands for any exception raised
there, which the handler on line 225 catches and logs. An empty
`failed_jobs` list returns immediately (line 196) with no log line. -/
def send_notification (failed_jobs : List RunResult) (email : Option String)
    (tryResult : Except String Unit) : NotifyOutcome :=
  if failed_jobs.isEmpty then
    { attempted := false, logs := [] }
  else if !emailTruthy email then
    { attempted := false, logs := [.warnedNoEmail] }
  else
    match tryResult with
    | .ok _ => { attempted := true, logs := [.sentOk] }
    | .error e => { attempted := true, logs := [.loggedDeliveryError e] }

/-- The environment of one loop iteration of `run_all_jobs`: the job spec
from `config['sync_jobs']`, and (for the case it is executed) the start
timestamp `datetime.datetime.now().isoformat()` and the child process
outcome. -/
structure JobEnv where
  job : JobSpec
  startTime : String
  outcome : ProcOutcome
deriving Repr, DecidableEq

/-- The `for job in self.config['sync_jobs']` loop of `run_all_jobs`
(src/sync.py lines 236-246): skip disabled jobs, run the rest through
`run_rsync`, and append each result to the successful or failed list. -/
def runJobsLoop (l : List JobEnv) (st : Status)
    (successful_jobs failed_jobs : List RunResult) :
    Status × List RunResult × List RunResult :=
  match l with
  | [] => (st, successful_jobs, failed_jobs)
  | e :: rest =>
      if e.job.enabled then
        let p := run_rsync st e.job e.startTime e.outcome
        if p.2.success then
          runJobsLoop rest p.1 (successful_jobs ++ [p.2]) failed_jobs
        else
          runJobsLoop rest p.1 successful_jobs (failed_jobs ++ [p.2])
      else
        runJobsLoop rest st successful_jobs failed_jobs

/-- Everything observable about one `run_all_jobs` call. -/
structure BatchResult where
  status : Status
  returnValue : Bool
  successful_jobs : List RunResult
  failed_jobs : List RunResult
  notification : NotifyOutcome
deriving Repr, DecidableEq

/-- `BackupSync.run_all_jobs` (src/sync.py lines 228-269). `batchStart` is
`start_time.isoformat()`; `email` and `tryResult` parameterize the
`send_notification` call, which happens only when `failed_jobs` is
nonempty (line 260). The function returns `len(failed_jobs) == 0`. -/
def run_all_jobs (l : List JobEnv) (st : Status) (batchStart : String)
    (email : Option String) (tryResult : Except String Unit) : BatchResult :=
  let r := runJobsLoop l st [] []
  let st2 : Status :=
    { r.1 with
      last_run := some batchStart,
      total_runs := r.1.total_runs + 1,
      last_summary := some
        { successful := r.2.1.length, failed := r.2.2.length,
          total := r.2.1.length + r.2.2.length } }
  { status := st2,
    returnValue := decide (r.2.2.length = 0),
    successful_jobs := r.2.1,
    failed_jobs := r.2.2,
    notification :=
      if r.2.2.isEmpty then { attempted := false, logs := [] }
      else send_notification r.2.2 email tryResult }

/-- The `__main__` block (src/sync.py lines 271-274): the process exit
status is 0 when `run_all_jobs` returned `True`, 1 otherwise. -/
def mainExitCode (l : List JobEnv) (st : Status) (batchStart : String)
    (email : Option String) (tryResult : Except String Unit) : Nat :=
  if (run_all_jobs l st batchStart email tryResult).returnValue then 0 else 1

/-! ### Spec-side formulations of the stats-parser value rule

Two independent descriptions of the value a recognized line is mapped to,
written from the spec's words rather than from the code, to be compared
with `lineValue`. -/

/-- The spec's claimed value rule, verbatim: "the substring after the
first colon of the line, trimmed". -/
def afterFirstColon (line : String) : String :=
  pyStrip (String.mk ((line.data.dropWhile (fun x => x != ':')).drop 1))

/-- The corrected value rule: the substring of the line strictly between
its first colon and its second colon (or the end of the line when there is
no second colon), trimmed. -/
def betweenFirstColons (line : String) : String :=
  pyStrip (String.mk
    (((line.data.dropWhile (fun x => x != ':')).drop 1).takeWhile (fun x => x != ':')))

/-- The stats mapping produced by the spec's claimed value rule
(`afterFirstColon`) on every recognized line. -/
def statsPerClaim (output : String) : List (String × String) :=
  (pySplitChar '\n' output).foldl
    (fun stats line =>
      match classifyLine line with
      | some key => dictInsert stats key (afterFirstColon line)
      | none => stats)
    []

/-- The stats mapping produced by the corrected value rule
(`betweenFirstColons`) on every recognized line. -/
def statsBetweenColons (output : String) : List (String × String) :=
  (pySplitChar '\n' output).foldl
    (fun stats line =>
      match classifyLine line with
      | some key => dictInsert stats key (betweenFirstColons line)
      | none => stats)
    []

/-! ### Lemmas about the split model -/

theorem tail_getD_zero {α : Type} (d : α) (l : List α) :
    l.tail.getD 0 d = l.getD 1 d := by
  cases l <;> rfl

theorem getD_zero_eq_headD {α : Type} (d : α) (l : List α) :
    l.getD 0 d = l.headD d := by
  cases l <;> rfl

/-- The first field `str.split(sep)` returns is the prefix of the string
up to the first separator. -/
theorem splitChar_headD (c : Char) (l : List Char) :
    (splitChar c l).headD [] = l.takeWhile (fun x => x != c) := by
  induction l with
  | nil => rfl
  | cons x xs ih =>
    by_cases h : x = c
    · subst h; simp [splitChar, List.takeWhile_cons]
    · simp [splitChar, h, List.takeWhile_cons, List.headD_eq_head?] at ih ⊢
      exact ih

/-- The second field `str.split(sep)` returns is the segment of the
string strictly between the first separator and the second one (or the
end of the string). -/
theorem splitChar_getD_one (c : Char) (l : List Char) :
    (splitChar c l).getD 1 [] =
      ((l.dropWhile (fun x => x != c)).drop 1).takeWhile (fun x => x != c) := by
  induction l with
  | nil => rfl
  | cons x xs ih =>
    by_cases h : x = c
    · subst h
      have hh := splitChar_headD x xs
      simp [splitChar, List.dropWhile_cons, List.getD_cons_succ,
        getD_zero_eq_headD, List.headD_eq_head?, List.head?_eq_getElem?] at hh ⊢
      exact hh
    · simp only [splitChar, h, if_false, List.getD_cons_succ, tail_getD_zero, ih,
        List.dropWhile_cons, bne_iff_ne, ne_eq, not_false_eq_true, if_true]

/-- `line.split(':')[1].strip()` computes the corrected value rule. -/
theorem lineValue_eq_betweenFirstColons :
    lineValue = betweenFirstColons := by
  funext line
  have hmap : (pySplitChar ':' line).getD 1 "" =
      String.mk ((splitChar ':' line.data).getD 1 []) := by
    unfold pySplitChar
    generalize splitChar ':' line.data = r
    match r with
    | [] => rfl
    | [a] => rfl
    | a :: b :: t => rfl
  unfold lineValue betweenFirstColons
  rw [hmap, splitChar_getD_one]

/-! ### Declarative description of the batch loop -/

/-- The run results of exactly the enabled jobs of a batch, in
configuration order, each executed once. -/
def enabledResults (l : List JobEnv) : List RunResult :=
  (l.filter (fun e => e.job.enabled)).map
    (fun e => mkRunResult e.job e.startTime e.outcome)

/-- The status document after the batch loop: each enabled job's result
upserted in turn. -/
def loopStatus (l : List JobEnv) (st : Status) : Status :=
  l.foldl
    (fun s e =>
      if e.job.enabled then (run_rsync s e.job e.startTime e.outcome).1 else s)
    st

theorem runJobsLoop_spec (l : List JobEnv) (st : Status)
    (succ fl : List RunResult) :
    runJobsLoop l st succ fl =
      (loopStatus l st,
       succ ++ (enabledResults l).filter (fun r => r.success),
       fl ++ (enabledResults l).filter (fun r => !r.success)) := by
  induction l generalizing st succ fl with
  | nil => simp [runJobsLoop, loopStatus, enabledResults]
  | cons e rest ih =>
    cases he : e.job.enabled with
    | false =>
      simp [runJobsLoop, he, ih, loopStatus, enabledResults, List.filter_cons]
    | true =>
      cases hs : (mkRunResult e.job e.startTime e.outcome).success with
      | false =>
        simp [runJobsLoop, he, run_rsync, hs, ih, loopStatus, enabledResults,
          List.filter_cons]
      | true =>
        simp [runJobsLoop, he, run_rsync, hs, ih, loopStatus, enabledResults,
          List.filter_cons]

theorem loopStatus_total_runs (l : List JobEnv) (st : Status) :
    (loopStatus l st).total_runs = st.total_runs := by
  induction l generalizing st with
  | nil => rfl
  | cons e rest ih =>
    cases he : e.job.enabled <;> simp [loopStatus, List.foldl_cons, he, run_rsync] at ih ⊢
      <;> exact ih _

theorem length_filter_partition {α : Type} (p : α → Bool) (l : List α) :
    (l.filter p).length + (l.filter (fun x => !p x)).length = l.length := by
  induction l with
  | nil => rfl
  | cons x xs ih => cases hx : p x <;> simp [List.filter_cons, hx] <;> omega

/-- The environment of one whole batch invocation. -/
structure BatchEnv where
  jobs : List JobEnv
  batchStart : String
  email : Option String
  tryResult : Except String Unit

/-- N sequential `run_all_jobs` invocations on the same process's status
document, each batch's status feeding the next. -/
def runBatches (bs : List BatchEnv) (st : Status) : Status :=
  bs.foldl
    (fun s b => (run_all_jobs b.jobs s b.batchStart b.email b.tryResult).status)
    st

/-! ### Claims -/

/-- C2: a job whose child process exceeds the 3600-second timeout yields a
`RunResult` with `success = false`, `return_code = -1`,
`error = "Timeout after 1 hour"`, `duration = 3600` (the timeout value)
and an empty stats mapping. -/
theorem run_rsync_timeout_result (st : Status) (job : JobSpec) (t : String) :
    ((run_rsync st job t ProcOutcome.timedOut).2).success = false
    ∧ ((run_rsync st job t ProcOutcome.timedOut).2).return_code = -1
    ∧ ((run_rsync st job t ProcOutcome.timedOut).2).error =
        some "Timeout after 1 hour"
    ∧ ((run_rsync st job t ProcOutcome.timedOut).2).duration = 3600
    ∧ ((run_rsync st job t ProcOutcome.timedOut).2).stats = [] :=
  ⟨rfl, rfl, rfl, rfl, rfl⟩

/-- C7: any child-process failure other than a normal exit or a timeout
yields `success = false`, `return_code = -1`, `error` holding the failure
description, and `duration = 0` regardless of the time elapsed before the
failure (the model takes no elapsed-time input on this path at all). -/
theorem run_rsync_exec_error_result (st : Status) (job : JobSpec) (t : String)
    (msg : String) :
    ((run_rsync st job t (ProcOutcome.execError msg)).2).success = false
    ∧ ((run_rsync st job t (ProcOutcome.execError msg)).2).return_code = -1
    ∧ ((run_rsync st job t (ProcOutcome.execError msg)).2).error = some msg
    ∧ ((run_rsync st job t (ProcOutcome.execError msg)).2).duration = 0 :=
  ⟨rfl, rfl, rfl, rfl⟩

/-- C9: whether the status file is missing (`FileNotFoundError`) or
unreadable for any other reason, `load_status` returns (never raises: the
model is a total function) the empty default document
`{jobs: {}, last_run: null, total_runs: 0}`. -/
theorem load_status_fallback_default :
    ((load_status ReadOutcome.fileNotFound).1 = defaultStatus
      ∧ ∀ m, (load_status (ReadOutcome.otherError m)).1 = defaultStatus)
    ∧ defaultStatus.jobs = []
    ∧ defaultStatus.last_run = none
    ∧ defaultStatus.total_runs = 0 :=
  ⟨⟨rfl, fun _ => rfl⟩, rfl, rfl, rfl⟩

/-- C10: on `FileNotFoundError` `load_status` immediately writes the
default document back via `save_status`, while on any other read failure
(and on a successful read) it performs no write. -/
theorem load_status_write_on_missing_only :
    (load_status ReadOutcome.fileNotFound).2 = some defaultStatus
    ∧ (∀ m, (load_status (ReadOutcome.otherError m)).2 = none)
    ∧ (∀ doc, (load_status (ReadOutcome.ok doc)).2 = none) :=
  ⟨rfl, fun _ => rfl, fun _ => rfl⟩

/-- C4: every completed batch increments `total_runs` by exactly 1 (hence
it is strictly monotonic and never reset within a run), and N sequential
batch invocations starting from the empty default document (the one
`load_status` yields for a missing file) leave `total_runs = N`. -/
theorem total_runs_counts_batches :
    (∀ l st t email tr,
        (run_all_jobs l st t email tr).status.total_runs = st.total_runs + 1)
    ∧ (∀ bs st, (runBatches bs st).total_runs = st.total_runs + bs.length)
    ∧ ∀ bs,
        (runBatches bs (load_status ReadOutcome.fileNotFound).1).total_runs =
          bs.length := by
  have h1 : ∀ l st t email tr,
      (run_all_jobs l st t email tr).status.total_runs = st.total_runs + 1 := by
    intro l st t email tr
    simp only [run_all_jobs, runJobsLoop_spec]
    exact congrArg (· + 1) (loopStatus_total_runs l st)
  have h2 : ∀ bs st, (runBatches bs st).total_runs = st.total_runs + bs.length := by
    intro bs
    induction bs with
    | nil => intro st; rfl
    | cons b rest ih =>
      intro st
      simp only [runBatches, List.foldl_cons] at ih ⊢
      rw [ih, h1]
      simp only [List.length_cons]
      omega
  exact ⟨h1, h2, fun bs => by rw [h2]; simp [load_status, defaultStatus]⟩

/-- C5: the successful and failed lists (the latter is exactly what is
passed to the Notifier) are obtained by running only the jobs with
`enabled = true`, in configuration order; a disabled job is never
executed and contributes to neither list nor to any count. -/
theorem disabled_jobs_excluded (l : List JobEnv) (st : Status) (t : String)
    (email : Option String) (tr : Except String Unit) :
    (run_all_jobs l st t email tr).successful_jobs =
        (enabledResults l).filter (fun r => r.success)
    ∧ (run_all_jobs l st t email tr).failed_jobs =
        (enabledResults l).filter (fun r => !r.success)
    ∧ enabledResults l =
        (l.filter (fun e => e.job.enabled)).map
          (fun e => mkRunResult e.job e.startTime e.outcome) := by
  refine ⟨?_, ?_, rfl⟩ <;> simp [run_all_jobs, runJobsLoop_spec]

/-- C1: `run_all_jobs` returns `true` exactly when the number of failed
enabled jobs is zero, and the process exit status is 0 exactly when every
enabled job of the batch succeeded, 1 otherwise. -/
theorem run_all_jobs_exit_contract (l : List JobEnv) (st : Status) (t : String)
    (email : Option String) (tr : Except String Unit) :
    ((run_all_jobs l st t email tr).returnValue = true ↔
        ((enabledResults l).filter (fun r => !r.success)).length = 0)
    ∧ (mainExitCode l st t email tr = 0 ↔
        ∀ e ∈ l, e.job.enabled = true →
          (mkRunResult e.job e.startTime e.outcome).success = true)
    ∧ (mainExitCode l st t email tr = 0 ∨ mainExitCode l st t email tr = 1) := by
  have hret : (run_all_jobs l st t email tr).returnValue =
      decide (((enabledResults l).filter (fun r => !r.success)).length = 0) := by
    simp [run_all_jobs, runJobsLoop_spec]
  have hiff : (run_all_jobs l st t email tr).returnValue = true ↔
      ((enabledResults l).filter (fun r => !r.success)).length = 0 := by
    rw [hret]; exact decide_eq_true_iff
  have hall : ((enabledResults l).filter (fun r => !r.success)).length = 0 ↔
      ∀ e ∈ l, e.job.enabled = true →
        (mkRunResult e.job e.startTime e.outcome).success = true := by
    rw [List.length_eq_zero, List.filter_eq_nil_iff]
    constructor
    · intro h e hel hen
      have hm : mkRunResult e.job e.startTime e.outcome ∈ enabledResults l :=
        List.mem_map_of_mem _ (List.mem_filter.2 ⟨hel, hen⟩)
      simpa using h _ hm
    · intro h r hr
      obtain ⟨e, he, rfl⟩ := List.mem_map.1 hr
      obtain ⟨hel, hen⟩ := List.mem_filter.1 he
      simpa using h e hel hen
  have hexit : mainExitCode l st t email tr = 0 ↔
      (run_all_jobs l st t email tr).returnValue = true := by
    unfold mainExitCode
    cases hrv : (run_all_jobs l st t email tr).returnValue <;> simp [hrv]
  refine ⟨hiff, hexit.trans (hiff.trans hall), ?_⟩
  unfold mainExitCode
  cases hrv : (run_all_jobs l st t email tr).returnValue <;> simp [hrv]

/-- C6: after every completed batch, `last_summary` is present, its
`total` equals `successful + failed`, and both equal the number of
enabled jobs processed in that batch. -/
theorem last_summary_consistent (l : List JobEnv) (st : Status) (t : String)
    (email : Option String) (tr : Except String Unit) :
    ∃ s, (run_all_jobs l st t email tr).status.last_summary = some s
      ∧ s.total = s.successful + s.failed
      ∧ s.total = (l.filter (fun e => e.job.enabled)).length := by
  refine ⟨⟨((enabledResults l).filter (fun r => r.success)).length,
          ((enabledResults l).filter (fun r => !r.success)).length,
          ((enabledResults l).filter (fun r => r.success)).length +
            ((enabledResults l).filter (fun r => !r.success)).length⟩, ?_, rfl, ?_⟩
  · simp [run_all_jobs, runJobsLoop_spec]
  · show ((enabledResults l).filter (fun r => r.success)).length +
        ((enabledResults l).filter (fun r => !r.success)).length =
        (l.filter (fun e => e.job.enabled)).length
    have hpart :=
      length_filter_partition (fun r : RunResult => r.success) (enabledResults l)
    have hlen :
        (enabledResults l).length = (l.filter (fun e => e.job.enabled)).length :=
      List.length_map _ _
    omega

/-- C3 counterexample: on the line `"Number of files: 1:2"` the code
stores `"1"` (the segment between the first and second colon), not the
full substring after the first colon `"1:2"` that the claim's value rule
(`statsPerClaim`) prescribes; moreover a recognized label is matched
anywhere in the line (`in` test), not only as a line prefix. -/
theorem parse_rsync_stats_not_after_first_colon :
    parse_rsync_stats "Number of files: 1:2" = [("total_files", "1")]
    ∧ statsPerClaim "Number of files: 1:2" = [("total_files", "1:2")]
    ∧ parse_rsync_stats "Number of files: 1:2" ≠
        statsPerClaim "Number of files: 1:2"
    ∧ parse_rsync_stats "junk before Number of files: 7" =
        [("total_files", "7")] := by
  refine ⟨by decide, by decide, by decide, by decide⟩

/-- C3 (amended): for every input text, `parse_rsync_stats` maps exactly
the lines containing one of the five recognized labels (first matching
label in source order) to the substring of the line strictly between its
first colon and its second colon (or the end of the line), trimmed; all
other lines are ignored and absent labels are missing keys, never an
error; the two concrete examples of the claim hold as stated. -/
theorem parse_rsync_stats_between_colons :
    (∀ output, parse_rsync_stats output = statsBetweenColons output)
    ∧ parse_rsync_stats
        "Number of files: 120\nTotal transferred file size: 4,096 bytes\n" =
        [("total_files", "120"), ("transferred_size", "4,096 bytes")]
    ∧ parse_rsync_stats "hello\nworld" = [] := by
  refine ⟨?_, by decide, by decide⟩
  intro output
  unfold parse_rsync_stats statsBetweenColons
  rw [lineValue_eq_betweenFirstColons]

/-- C8 counterexample: called with an empty failed-jobs list (and a
recipient configured), `send_notification` returns immediately, logging
nothing — in particular no warning, contradicting the claim's "no-op with
a logged warning" for the empty-list case. -/
theorem send_notification_empty_silent :
    send_notification [] (some "ops@example.com") (Except.ok ()) =
      { attempted := false, logs := [] }
    ∧ NotifyLog.warnedNoEmail ∉
        (send_notification [] (some "ops@example.com") (Except.ok ())).logs := by
  refine ⟨rfl, by decide⟩

/-- C8 (amended): an empty failed-jobs list makes `send_notification` a
silent no-op (no delivery attempt, nothing logged); an unset (absent or
empty) recipient makes it a no-op with a logged warning; in both no-op
cases no delivery is attempted; a delivery/composition failure is caught
and logged, the function always returns; and the batch's returned
success, persisted status and failed-job list never depend on the
notification outcome. -/
theorem send_notification_contract (failed_jobs : List RunResult)
    (email : Option String) (tr : Except String Unit) :
    (failed_jobs = [] →
        send_notification failed_jobs email tr = { attempted := false, logs := [] })
    ∧ (failed_jobs ≠ [] → emailTruthy email = false →
        send_notification failed_jobs email tr =
          { attempted := false, logs := [NotifyLog.warnedNoEmail] })
    ∧ ((failed_jobs = [] ∨ emailTruthy email = false) →
        (send_notification failed_jobs email tr).attempted = false)
    ∧ (∀ e, failed_jobs ≠ [] → emailTruthy email = true →
        send_notification failed_jobs email (Except.error e) =
          { attempted := true, logs := [NotifyLog.loggedDeliveryError e] })
    ∧ (∀ l st t tr2,
        (run_all_jobs l st t email tr).returnValue =
            (run_all_jobs l st t email tr2).returnValue
        ∧ (run_all_jobs l st t email tr).status =
            (run_all_jobs l st t email tr2).status
        ∧ (run_all_jobs l st t email tr).failed_jobs =
            (run_all_jobs l st t email tr2).failed_jobs) := by
  refine ⟨?_, ?_, ?_, ?_, ?_⟩
  · intro h; subst h; rfl
  · intro h1 h2
    cases failed_jobs with
    | nil => exact absurd rfl h1
    | cons a as => simp [send_notification, h2]
  · rintro (rfl | hf)
    · rfl
    · cases failed_jobs with
      | nil => rfl
      | cons a as => simp [send_notification, hf]
  · intro e h1 h2
    cases failed_jobs with
    | nil => exact absurd rfl h1
    | cons a as => simp [send_notification, h2]
  · intro l st t tr2
    exact ⟨rfl, rfl, rfl⟩

/-- C8 witness: the amended contract instantiated at a concrete call. -/
theorem send_notification_contract_witness :
    send_notification [] (some "a@b.example") (Except.ok ()) =
      { attempted := false, logs := [] } :=
  (send_notification_contract [] (some "a@b.example") (Except.ok ())).1 rfl

end RsyncService
